import Mathlib

/-
  Verification of the mini SDL game engine / editor pair
  (sdl_game_engine.cpp and sdl_game_engine_2.cpp).

  Shallow embedding conventions:
  * C++ `float` values are modelled as rationals (ℚ); `int` as ℤ, ids as ℕ.
  * `rand()` is modelled by explicitly threaded non-negative integer oracle
    values; `rand() % n` becomes integer `emod`, which agrees with C on a
    non-negative dividend and positive modulus.
  * `sqrtf` is modelled by an explicit function parameter `sq : ℚ → ℚ`;
    theorems that depend on its meaning carry the hypothesis that the value
    it returns squares back to its argument.
  * `std::unordered_map` iteration (`World::all()`) is modelled as the list
    of entities in insertion order.
  * mutation through `shared_ptr<Component>` is modelled by functional
    update of the first component of the matching kind, which is exactly
    the component `getComponent` returns.
-/

set_option autoImplicit false

namespace SdlEngine

/-- Engine configuration: `EngineConfig { int width; int height; ... }`.
Only the world dimensions matter to the simulation. -/
structure EngineConfig where
  width : Int
  height : Int
  deriving DecidableEq

/-- `struct Transform : Component { float x=0, y=0; float w=0, h=0; float angle=0; }`. -/
structure Transform where
  x : ℚ
  y : ℚ
  w : ℚ
  h : ℚ
  angle : ℚ
  deriving DecidableEq

/-- `struct Velocity : Component { float vx=0, vy=0; }`. -/
structure Velocity where
  vx : ℚ
  vy : ℚ
  deriving DecidableEq

/-- A component attached to an entity; the component set is closed
(Transform, Sprite, Velocity).  The sprite payload (texture handle, scale)
is irrelevant to the verified logic, so `sprite` carries no data. -/
inductive Component where
  | transform (t : Transform)
  | sprite
  | velocity (v : Velocity)
  deriving DecidableEq

/-- The runtime kind of a component, standing for its dynamic C++ type. -/
inductive ComponentKind where
  | transform
  | sprite
  | velocity
  deriving DecidableEq

/-- Dynamic type of a component, as tested by `dynamic_pointer_cast`. -/
def Component.kind : Component → ComponentKind
  | .transform _ => .transform
  | .sprite => .sprite
  | .velocity _ => .velocity

/-- `struct Entity { EntityId id; vector<shared_ptr<Component>> components; }`;
components are kept in insertion order, as `addComponent` pushes back. -/
structure Entity where
  id : Nat
  comps : List Component
  deriving DecidableEq

namespace Entity

/-- `addComponent<T>`: unconditionally appends a freshly-made component. -/
def addComponent (e : Entity) (c : Component) : Entity :=
  { e with comps := e.comps ++ [c] }

/-- `getComponent<T>` for a generic kind: returns the first component whose
dynamic type matches, scanning the vector in insertion order. -/
def getByKind (e : Entity) (k : ComponentKind) : Option Component :=
  e.comps.find? (fun c => c.kind == k)

/-- Number of components of a given kind stored on the entity. -/
def countKind (e : Entity) (k : ComponentKind) : Nat :=
  (e.comps.filter (fun c => c.kind == k)).length

/-- First `Transform` in the component list (`getComponent<Transform>`). -/
def getTransform : Entity → Option Transform :=
  fun e => go e.comps
where
  go : List Component → Option Transform
    | [] => none
    | .transform t :: _ => some t
    | _ :: rest => go rest

/-- First `Velocity` in the component list (`getComponent<Velocity>`). -/
def getVelocity : Entity → Option Velocity :=
  fun e => go e.comps
where
  go : List Component → Option Velocity
    | [] => none
    | .velocity v :: _ => some v
    | _ :: rest => go rest

/-- Whether the entity has a `Sprite` component (`getComponent<Sprite>` non-null). -/
def hasSprite (e : Entity) : Bool :=
  e.comps.any (fun c => c.kind == .sprite)

/-- Replace the first `Transform` component, modelling mutation through the
shared pointer returned by `getComponent<Transform>`.  When the entity has
no `Transform` this is the identity (the C++ caller never writes in that
case, since the pointer would be null). -/
def setTransform (e : Entity) (t : Transform) : Entity :=
  { e with comps := go e.comps t }
where
  go : List Component → Transform → List Component
    | [], _ => []
    | .transform _ :: rest, t0 => .transform t0 :: rest
    | c :: rest, t0 => c :: go rest t0

/-- Replace the first `Velocity` component, modelling mutation through the
shared pointer returned by `getComponent<Velocity>`. -/
def setVelocity (e : Entity) (v : Velocity) : Entity :=
  { e with comps := go e.comps v }
where
  go : List Component → Velocity → List Component
    | [], _ => []
    | .velocity _ :: rest, v0 => .velocity v0 :: rest
    | c :: rest, v0 => c :: go rest v0

end Entity

/-- `bool aabbIntersect(const Transform& a, const Transform& b) {
  return !(a.x + a.w < b.x || a.x > b.x + b.w || a.y + a.h < b.y || a.y > b.y + b.h);
}` — identical in both source files. -/
def aabbIntersect (a b : Transform) : Bool :=
  !(decide (a.x + a.w < b.x) || decide (a.x > b.x + b.w)
    || decide (a.y + a.h < b.y) || decide (a.y > b.y + b.h))

theorem aabbIntersect_iff (a b : Transform) :
    aabbIntersect a b = true ↔
      b.x ≤ a.x + a.w ∧ a.x ≤ b.x + b.w ∧ b.y ≤ a.y + a.h ∧ a.y ≤ b.y + b.h := by
  simp [aabbIntersect, not_lt, and_assoc]

/-- C8: the AABB intersection test is symmetric (`aabbIntersect a b =
aabbIntersect b a` for every pair of Transforms), reflexive on rectangles
with non-negative width and height, and counts rectangles touching exactly
at an edge (here: a's right edge equal to b's left edge, with vertical
overlap) as intersecting. -/
theorem c8_aabb_symm_refl_edge (a b : Transform) :
    (aabbIntersect a b = aabbIntersect b a)
    ∧ (0 ≤ a.w → 0 ≤ a.h → aabbIntersect a a = true)
    ∧ (0 ≤ a.w → 0 ≤ b.w → a.x + a.w = b.x →
        b.y ≤ a.y + a.h → a.y ≤ b.y + b.h → aabbIntersect a b = true) := by
  refine ⟨?_, ?_, ?_⟩
  · rw [Bool.eq_iff_iff, aabbIntersect_iff, aabbIntersect_iff]
    tauto
  · intro hw hh
    rw [aabbIntersect_iff]
    exact ⟨by linarith, by linarith, by linarith, by linarith⟩
  · intro haw hbw hedge hy1 hy2
    rw [aabbIntersect_iff]
    exact ⟨by linarith, by linarith, hy1, hy2⟩

/-- Truncation of a float toward zero, as performed by a C++ `(int)` cast. -/
def cppInt (q : ℚ) : ℤ :=
  if q < 0 then ⌈q⌉ else ⌊q⌋

/-- `rand() % m` as a rational: non-negative oracle value `r`, integer
modulus `m`.  For `0 < m` this agrees with the C expression. -/
def randMod (r : Nat) (m : ℤ) : ℚ :=
  (((r : ℤ) % m : ℤ) : ℚ)

/-- `struct World { EntityId next=1; unordered_map<EntityId, shared_ptr<Entity>> ents; }`.
The entity map is modelled as a list in insertion order; ids are unique and
strictly increasing, so this is faithful up to the (unspecified) iteration
order of `all()`. -/
structure World where
  next : Nat
  ents : List Entity
  deriving DecidableEq

namespace World

/-- `World::create()`: allocate a fresh id and register an empty entity. -/
def create (w : World) : Entity × World :=
  let e : Entity := { id := w.next, comps := [] }
  (e, { next := w.next + 1, ents := w.ents ++ [e] })

/-- Lookup in the entity map (`ents[i]`); ids are unique keys. -/
def findEnt (i : Nat) : List Entity → Option Entity
  | [] => none
  | e :: rest => if e.id = i then some e else findEnt i rest

/-- Read the current `Transform` of the entity with the given id
(the re-read through `shared_ptr` the C++ does at each use site). -/
def getTr (w : World) (i : Nat) : Option Transform :=
  (findEnt i w.ents).bind Entity.getTransform

/-- Write the `Transform` of the entity with the given id (mutation through
the pointer `getComponent<Transform>` returned). -/
def setTr (w : World) (i : Nat) (t : Transform) : World :=
  { w with ents := go w.ents }
where
  go : List Entity → List Entity
    | [] => []
    | e :: rest => if e.id = i then e.setTransform t :: rest else e :: go rest

/-- Read the current `Velocity` of the entity with the given id. -/
def getVel (w : World) (i : Nat) : Option Velocity :=
  (findEnt i w.ents).bind Entity.getVelocity

/-- Whether the entity with the given id holds a `Sprite` component. -/
def spriteAt (w : World) (i : Nat) : Bool :=
  match findEnt i w.ents with
  | some e => e.hasSprite
  | none => false

end World

/-- One entity of the velocity-integration loop in `Editor2::update`
(and the body of `physicsSystem` in the first file, with `dt = 1`):
  `tr->x += v->vx*dt; tr->y += v->vy*dt;
   if(tr->x<0)tr->x=0; if(tr->y<0)tr->y=0;
   if(tr->x+tr->w>width) tr->x = width - tr->w;
   if(tr->y+tr->h>height) tr->y = height - tr->h;` -/
def integClamp (cfg : EngineConfig) (dt : ℚ) (t : Transform) (v : Velocity) : Transform :=
  let x1 := t.x + v.vx * dt
  let y1 := t.y + v.vy * dt
  let x2 := if x1 < 0 then 0 else x1
  let y2 := if y1 < 0 then 0 else y1
  let x3 := if x2 + t.w > (cfg.width : ℚ) then (cfg.width : ℚ) - t.w else x2
  let y3 := if y2 + t.h > (cfg.height : ℚ) then (cfg.height : ℚ) - t.h else y2
  { t with x := x3, y := y3 }

/-- Integration applied to one entity: only entities holding both a
`Transform` and a `Velocity` are moved and clamped. -/
def integrateEnt (cfg : EngineConfig) (dt : ℚ) (e : Entity) : Entity :=
  match e.getTransform, e.getVelocity with
  | some t, some v => e.setTransform (integClamp cfg dt t v)
  | _, _ => e

/-- The integration phase of `Editor2::update`: the loop over `world.all()`. -/
def integratePhase (cfg : EngineConfig) (dt : ℚ) (w : World) : World :=
  { w with ents := w.ents.map (integrateEnt cfg dt) }

/-- Result of the role-classification scan (player / enemy / target ids). -/
structure Roles where
  player : Option Nat
  enemy : Option Nat
  target : Option Nat
  deriving DecidableEq

/-- `Editor2::update`, role scan:
`for(ent : all()) if(sp = ent->get<Sprite>()){ tr = ent->get<Transform>();
  if(tr->w>48) player=ent; else if(tr->w>40) enemy=ent; else target=ent; }`.
An entity with a Sprite but no Transform makes the C++ dereference a null
pointer; the model skips it, and theorems never rely on that case. -/
def rolesScan (es : List Entity) : Roles :=
  es.foldl
    (fun r e =>
      if e.hasSprite then
        match e.getTransform with
        | some tr =>
          if tr.w > 48 then { r with player := some e.id }
          else if tr.w > 40 then { r with enemy := some e.id }
          else { r with target := some e.id }
        | none => r
      else r)
    ⟨none, none, none⟩

/-- `dx = (pt->x + pt->w/2) - (et->x + et->w/2)`: horizontal offset between
the player's and enemy's bounding-box centers. -/
def centerDx (pt et : Transform) : ℚ :=
  (pt.x + pt.w / 2) - (et.x + et.w / 2)

/-- `dy = (pt->y + pt->h/2) - (et->y + et->h/2)`. -/
def centerDy (pt et : Transform) : ℚ :=
  (pt.y + pt.h / 2) - (et.y + et.h / 2)

/-- The chase move applied to the enemy transform, `Editor2::update`:
`dist=sqrtf(dx*dx+dy*dy);
 if(dist>1e-3f){ et->x += (dx/dist)*100.0f*dt; et->y += (dy/dist)*100.0f*dt; }`
with `speed = 100*dt` (the first file uses the same shape with speed 1.5).
`sq` stands for `sqrtf`. -/
def chaseMove (sq : ℚ → ℚ) (speed : ℚ) (pt et : Transform) : Transform :=
  let dist := sq (centerDx pt et * centerDx pt et + centerDy pt et * centerDy pt et)
  if dist > 1 / 1000 then
    { et with x := et.x + centerDx pt et / dist * speed,
              y := et.y + centerDy pt et / dist * speed }
  else et

/-- The pickup check of `Editor2::update`:
`if(aabbIntersect(*player_tr, *target_tr)){ score++;
  target_tr->x = rand()%(width-(int)target_tr->w);
  target_tr->y = rand()%(height-(int)target_tr->h); }`.
Returns the updated target transform and score. -/
def pickupCheck (cfg : EngineConfig) (r1 r2 : Nat) (pt tt : Transform)
    (score : Int) : Transform × Int :=
  if aabbIntersect pt tt then
    ({ tt with x := randMod r1 (cfg.width - cppInt tt.w),
               y := randMod r2 (cfg.height - cppInt tt.h) }, score + 1)
  else (tt, score)

/-- Editor session state of the second file:
`struct Editor2 { ...; World world; shared_ptr<Entity> selected; bool playing; int score; }`.
The selection is kept by entity id. -/
structure Editor2 where
  world : World
  selected : Option Nat
  playing : Bool
  score : Int
  deriving DecidableEq

namespace Editor2

/-- The demo world built by `Editor2::spawnDemoScene` on a fresh `World()`:
player (id 1) `Transform(width/2-32, height/2-32, 64, 64)` + Sprite +
Velocity, target (id 2) `Transform(rand()%(width-32), rand()%(height-32), 32, 32)`
+ Sprite, enemy (id 3) `Transform(rand()%(width-48), rand()%(height-48), 48, 48)`
+ Sprite.  `width/2` is C++ integer division. -/
def demoWorld (cfg : EngineConfig) (r1 r2 r3 r4 : Nat) : World :=
  { next := 4,
    ents :=
      [ { id := 1,
          comps := [.transform { x := ((cfg.width / 2 - 32 : ℤ) : ℚ),
                                 y := ((cfg.height / 2 - 32 : ℤ) : ℚ),
                                 w := 64, h := 64, angle := 0 },
                    .sprite, .velocity { vx := 0, vy := 0 }] },
        { id := 2,
          comps := [.transform { x := randMod r1 (cfg.width - 32),
                                 y := randMod r2 (cfg.height - 32),
                                 w := 32, h := 32, angle := 0 },
                    .sprite] },
        { id := 3,
          comps := [.transform { x := randMod r3 (cfg.width - 48),
                                 y := randMod r4 (cfg.height - 48),
                                 w := 48, h := 48, angle := 0 },
                    .sprite] } ] }

/-- `Editor2::spawnDemoScene()`: `world = World(); selected=nullptr; score=0;`
then the three demo entities are created.  Note: the `playing` flag is not
touched by the function. -/
def spawnDemoScene (cfg : EngineConfig) (r1 r2 r3 r4 : Nat) (ed : Editor2) : Editor2 :=
  { ed with world := demoWorld cfg r1 r2 r3 r4, selected := none, score := 0 }

/-- The Play/Pause button of `Editor2::uiViewport`: `playing = !playing`. -/
def togglePlay (ed : Editor2) : Editor2 :=
  { ed with playing := !ed.playing }

/-- `Editor2::update(float dt)`, the whole simulation step.  `sq` models
`sqrtf`; `r1 r2` are the two `rand()` values the pickup branch may consume.
Phases, in source order: velocity integration + clamp over all entities;
role scan; chase and catch-reset (only when both a player and an enemy were
classified); pickup (only when both a player and a target were classified).
All transform reads re-read the current world, as the C++ pointers do. -/
def update (cfg : EngineConfig) (sq : ℚ → ℚ) (dt : ℚ) (r1 r2 : Nat)
    (ed : Editor2) : Editor2 :=
  if ed.playing then
    let w1 := integratePhase cfg dt ed.world
    let roles := rolesScan w1.ents
    let step2 : World × Int :=
      match roles.player, roles.enemy with
      | some pid, some eid =>
        (match w1.getTr pid, w1.getTr eid with
         | some pt, some et =>
           let w2 := w1.setTr eid (chaseMove sq (100 * dt) pt et)
           (match w2.getTr pid, w2.getTr eid with
            | some pt2, some et2 =>
              if aabbIntersect pt2 et2 then
                (w2.setTr pid { pt2 with x := ((cfg.width / 2 - 32 : ℤ) : ℚ),
                                         y := ((cfg.height / 2 - 32 : ℤ) : ℚ) }, 0)
              else (w2, ed.score)
            | _, _ => (w2, ed.score))
         | _, _ => (w1, ed.score))
      | _, _ => (w1, ed.score)
    let step3 : World × Int :=
      match roles.player, roles.target with
      | some pid, some tid =>
        (match step2.1.getTr pid, step2.1.getTr tid with
         | some pt, some tt =>
           let res := pickupCheck cfg r1 r2 pt tt step2.2
           (step2.1.setTr tid res.1, res.2)
         | _, _ => step2)
      | _, _ => step2
    { ed with world := step3.1, score := step3.2 }
  else ed

/-- Keys relevant to the editor build's event loop (WASD; everything else
is `other`). -/
inductive Key where
  | w
  | a
  | s
  | d
  | other
  deriving DecidableEq

/-- Mutate the `Velocity` of `world.all()[0]` (the first entity in store
order), as `editor.world.all()[0]->get<Velocity>()->… = …` does.  A missing
first entity or missing Velocity would be a null dereference in C++; the
model leaves the state unchanged and theorems assume presence. -/
def modifyFirstVel (ed : Editor2) (f : Velocity → Velocity) : Editor2 :=
  match ed.world.ents with
  | [] => ed
  | e :: rest =>
    match e.getVelocity with
    | some v => { ed with world := { ed.world with ents := e.setVelocity (f v) :: rest } }
    | none => ed

/-- `SDL_KEYDOWN` handling in the editor build's main loop: only while
playing; W/S set `vy` to ∓200, A/D set `vx` to ∓200 on the first entity. -/
def handleKeyDown (k : Key) (ed : Editor2) : Editor2 :=
  if ed.playing then
    match k with
    | .w => ed.modifyFirstVel (fun v => { v with vy := -200 })
    | .s => ed.modifyFirstVel (fun v => { v with vy := 200 })
    | .a => ed.modifyFirstVel (fun v => { v with vx := -200 })
    | .d => ed.modifyFirstVel (fun v => { v with vx := 200 })
    | .other => ed
  else ed

/-- `SDL_KEYUP` handling in the editor build's main loop: only while
playing; W or S reset `vy` to 0, A or D reset `vx` to 0. -/
def handleKeyUp (k : Key) (ed : Editor2) : Editor2 :=
  if ed.playing then
    match k with
    | .w | .s => ed.modifyFirstVel (fun v => { v with vy := 0 })
    | .a | .d => ed.modifyFirstVel (fun v => { v with vx := 0 })
    | .other => ed
  else ed

/-- Velocity of the first entity in store order, if any. -/
def firstVel (ed : Editor2) : Option Velocity :=
  match ed.world.ents with
  | [] => none
  | e :: _ => e.getVelocity

end Editor2

/-- A screen-space rectangle (the viewport area reserved by the UI). -/
structure ScreenRect where
  x : ℚ
  y : ℚ
  w : ℚ
  h : ℚ
  deriving DecidableEq

/-- The forward viewport mapping realised by `Editor2::drawSceneToViewport`:
`SDL_RenderSetViewport(view)` offsets to the rectangle's top-left and
`SDL_RenderSetScale(view.w/width, view.h/height)` scales the world extent
to fill it, so a world point lands at
`screen = rect.topleft + world * (rect.size / world.size)`. -/
def worldToScreen (cfg : EngineConfig) (r : ScreenRect) (p : ℚ × ℚ) : ℚ × ℚ :=
  (r.x + p.1 * (r.w / (cfg.width : ℚ)), r.y + p.2 * (r.h / (cfg.height : ℚ)))

/-- The inverse mapping used for picking/dragging in `Editor2::uiViewport`:
`sx = (mp.x - p.x) * (float)width / s.x; sy = (mp.y - p.y) * (float)height / s.y;`. -/
def screenToWorld (cfg : EngineConfig) (r : ScreenRect) (p : ℚ × ℚ) : ℚ × ℚ :=
  ((p.1 - r.x) * ((cfg.width : ℚ) / r.w), (p.2 - r.y) * ((cfg.height : ℚ) / r.h))

/-- The bounding rectangle lies within `[0, width] × [0, height]`. -/
def trInBounds (cfg : EngineConfig) (t : Transform) : Bool :=
  decide (0 ≤ t.x) && decide (0 ≤ t.y)
    && decide (t.x + t.w ≤ (cfg.width : ℚ)) && decide (t.y + t.h ≤ (cfg.height : ℚ))

/-- Key-state table entries read by the first file's `onUpdate`
(`E.input.keys.at(...)`); modelled as booleans assumed present. -/
structure Keys where
  w : Bool
  a : Bool
  s : Bool
  d : Bool
  up : Bool
  down : Bool
  left : Bool
  right : Bool
  deriving DecidableEq

/-- Game state closed over by the first file's demo `main`: the player's
Transform and Velocity, the target's and enemy's Transforms (neither has a
Velocity component), and the score. -/
structure G1State where
  pt : Transform
  pv : Velocity
  tt : Transform
  et : Transform
  score : Int
  deriving DecidableEq

/-- The whole `onUpdate` lambda of `sdl_game_engine.cpp`, in source order:
1. zero the player velocity, then set `±speed` (4.0) per WASD/arrow keys;
2. `physicsSystem` — integrates and clamps the player (the only entity
   holding both Transform and Velocity), with a per-frame unit step;
3. enemy chase toward the player at speed 1.5, guarded by `dist > 0.001`;
4. pickup: if player and target intersect, `score++`, target re-rolled to
   `rand()%(width-(int)w)`-style coordinates and the enemy nudged likewise;
5. catch: if player and (possibly nudged) enemy intersect, `score = 0`,
   `pt->x = width / 2.0f; pt->y = height / 2;` (the y uses C++ integer
   division) and the enemy re-rolled.
`sq` models `sqrtf`; `r1..r6` the successive `rand()` draws. -/
def engine1Step (cfg : EngineConfig) (sq : ℚ → ℚ) (keys : Keys)
    (r1 r2 r3 r4 r5 r6 : Nat) (g : G1State) : G1State :=
  let v0 : Velocity := { vx := 0, vy := 0 }
  let v1 := if keys.w || keys.up then { v0 with vy := -4 } else v0
  let v2 := if keys.s || keys.down then { v1 with vy := 4 } else v1
  let v3 := if keys.a || keys.left then { v2 with vx := -4 } else v2
  let v4 := if keys.d || keys.right then { v3 with vx := 4 } else v3
  let pt1 := integClamp cfg 1 g.pt v4
  let et1 := chaseMove sq (3 / 2) pt1 g.et
  let pick : Transform × Transform × Int :=
    if aabbIntersect pt1 g.tt then
      ({ g.tt with x := randMod r1 (cfg.width - cppInt g.tt.w),
                   y := randMod r2 (cfg.height - cppInt g.tt.h) },
       { et1 with x := randMod r3 (cfg.width - cppInt et1.w),
                  y := randMod r4 (cfg.height - cppInt et1.h) },
       g.score + 1)
    else (g.tt, et1, g.score)
  if aabbIntersect pt1 pick.2.1 then
    { pt := { pt1 with x := (cfg.width : ℚ) / 2, y := ((cfg.height / 2 : ℤ) : ℚ) },
      pv := v4,
      tt := pick.1,
      et := { pick.2.1 with x := randMod r5 (cfg.width - cppInt pick.2.1.w),
                            y := randMod r6 (cfg.height - cppInt pick.2.1.h) },
      score := 0 }
  else
    { pt := pt1, pv := v4, tt := pick.1, et := pick.2.1, score := pick.2.2 }

theorem Entity.getTransform_go_set_go (l : List Component) (t t2 : Transform)
    (h : Entity.getTransform.go l = some t) :
    Entity.getTransform.go (Entity.setTransform.go l t2) = some t2 := by
  induction l with
  | nil => simp [Entity.getTransform.go] at h
  | cons c rest ih =>
    cases c with
    | transform t0 => simp [Entity.getTransform.go, Entity.setTransform.go]
    | sprite =>
      simp only [Entity.getTransform.go, Entity.setTransform.go] at h ⊢
      exact ih h
    | velocity v =>
      simp only [Entity.getTransform.go, Entity.setTransform.go] at h ⊢
      exact ih h

theorem Entity.getTransform_setTransform (e : Entity) (t t2 : Transform)
    (h : e.getTransform = some t) :
    (e.setTransform t2).getTransform = some t2 :=
  Entity.getTransform_go_set_go e.comps t t2 h

theorem Entity.getVelocity_go_set_go (l : List Component) (v v2 : Velocity)
    (h : Entity.getVelocity.go l = some v) :
    Entity.getVelocity.go (Entity.setVelocity.go l v2) = some v2 := by
  induction l with
  | nil => simp [Entity.getVelocity.go] at h
  | cons c rest ih =>
    cases c with
    | velocity v0 => simp [Entity.getVelocity.go, Entity.setVelocity.go]
    | sprite =>
      simp only [Entity.getVelocity.go, Entity.setVelocity.go] at h ⊢
      exact ih h
    | transform t0 =>
      simp only [Entity.getVelocity.go, Entity.setVelocity.go] at h ⊢
      exact ih h

theorem Entity.getVelocity_setVelocity (e : Entity) (v v2 : Velocity)
    (h : e.getVelocity = some v) :
    (e.setVelocity v2).getVelocity = some v2 :=
  Entity.getVelocity_go_set_go e.comps v v2 h

theorem Entity.id_setTransform (e : Entity) (t : Transform) :
    (e.setTransform t).id = e.id := rfl

theorem World.getTr_go_ne (l : List Entity) (i j : Nat) (t : Transform) (hij : i ≠ j) :
    (World.findEnt i (World.setTr.go j t l)).bind Entity.getTransform
      = (World.findEnt i l).bind Entity.getTransform := by
  induction l with
  | nil => rfl
  | cons e rest ih =>
    by_cases hej : e.id = j
    · have hei : ¬ e.id = i := by
        rw [hej]
        exact fun hh => hij hh.symm
      have hei2 : ¬ (e.setTransform t).id = i := hei
      have hji : ¬ j = i := fun hh => hij hh.symm
      simp [World.setTr.go, World.findEnt, hej, hei, hei2, hji]
    · by_cases hei : e.id = i
      · simp [World.setTr.go, World.findEnt, hej, hei, hij]
      · simp only [World.setTr.go, if_neg hej]
        simp only [World.findEnt, if_neg hei]
        exact ih

theorem World.getTr_go_self (l : List Entity) (j : Nat) (t t0 : Transform)
    (h : (World.findEnt j l).bind Entity.getTransform = some t0) :
    (World.findEnt j (World.setTr.go j t l)).bind Entity.getTransform = some t := by
  induction l with
  | nil => simp [World.findEnt] at h
  | cons e rest ih =>
    by_cases hej : e.id = j
    · simp only [World.findEnt, if_pos hej, Option.some_bind] at h
      have hej2 : (e.setTransform t).id = j := hej
      simp only [World.setTr.go, if_pos hej, World.findEnt, if_pos hej2,
        Option.some_bind]
      exact Entity.getTransform_setTransform e t0 t h
    · simp only [World.findEnt, if_neg hej] at h
      simp only [World.setTr.go, if_neg hej, World.findEnt, if_neg hej]
      exact ih h

theorem World.getTr_setTr_of_ne (w : World) (i j : Nat) (t : Transform) (hij : i ≠ j) :
    (w.setTr j t).getTr i = w.getTr i :=
  World.getTr_go_ne w.ents i j t hij

theorem World.getTr_setTr_self (w : World) (j : Nat) (t t0 : Transform)
    (h : w.getTr j = some t0) :
    (w.setTr j t).getTr j = some t :=
  World.getTr_go_self w.ents j t t0 h

theorem integClamp_bounds (cfg : EngineConfig) (dt : ℚ) (t : Transform) (v : Velocity)
    (hw1 : t.w ≤ (cfg.width : ℚ)) (hh1 : t.h ≤ (cfg.height : ℚ)) :
    0 ≤ (integClamp cfg dt t v).x ∧ 0 ≤ (integClamp cfg dt t v).y
      ∧ (integClamp cfg dt t v).x + (integClamp cfg dt t v).w ≤ (cfg.width : ℚ)
      ∧ (integClamp cfg dt t v).y + (integClamp cfg dt t v).h ≤ (cfg.height : ℚ) := by
  simp only [integClamp]
  split_ifs with h1 h2 h3 h4 h5 h6 h7 h8 h9 <;>
    refine ⟨by linarith, by linarith, by linarith, by linarith⟩

theorem randMod_bounds (r : Nat) (m : ℤ) (hm : 0 < m) :
    0 ≤ randMod r m ∧ randMod r m ≤ (m : ℚ) - 1 := by
  have h0 : (0 : ℤ) ≤ (r : ℤ) % m := Int.emod_nonneg _ (ne_of_gt hm)
  have h1 : (r : ℤ) % m < m := Int.emod_lt_of_pos _ hm
  have h2 : (r : ℤ) % m ≤ m - 1 := by omega
  constructor
  · unfold randMod
    exact_mod_cast h0
  · unfold randMod
    calc (((r : ℤ) % m : ℤ) : ℚ) ≤ ((m - 1 : ℤ) : ℚ) := by exact_mod_cast h2
    _ = (m : ℚ) - 1 := by push_cast; ring

theorem Editor2.firstVel_modifyFirstVel (ed : Editor2) (f : Velocity → Velocity)
    (v : Velocity) (hv : ed.firstVel = some v) :
    (ed.modifyFirstVel f).firstVel = some (f v) := by
  cases hents : ed.world.ents with
  | nil => simp [Editor2.firstVel, hents] at hv
  | cons e rest =>
    simp only [Editor2.firstVel, hents] at hv
    simp only [Editor2.modifyFirstVel, hents, hv, Editor2.firstVel]
    exact Entity.getVelocity_setVelocity e v (f v) hv

/-- Editor-variant window/world configuration: 1280 × 720. -/
def cfgE2 : EngineConfig := { width := 1280, height := 720 }

/-- Non-editor-variant window/world configuration: 800 × 600. -/
def cfgE1 : EngineConfig := { width := 800, height := 600 }

/-- A concrete stand-in for `sqrtf` used on inputs whose squared distance is
2500 (so the true square root is 50). -/
def sqW : ℚ → ℚ := fun q => if q = 2500 then 50 else 0

theorem c8_witness :
    (aabbIntersect ⟨0, 0, 4, 4, 0⟩ ⟨4, 0, 4, 4, 0⟩
        = aabbIntersect ⟨4, 0, 4, 4, 0⟩ ⟨0, 0, 4, 4, 0⟩)
    ∧ aabbIntersect ⟨0, 0, 4, 4, 0⟩ ⟨0, 0, 4, 4, 0⟩ = true
    ∧ aabbIntersect ⟨0, 0, 4, 4, 0⟩ ⟨4, 0, 4, 4, 0⟩ = true :=
  ⟨(c8_aabb_symm_refl_edge ⟨0, 0, 4, 4, 0⟩ ⟨4, 0, 4, 4, 0⟩).1,
   (c8_aabb_symm_refl_edge ⟨0, 0, 4, 4, 0⟩ ⟨4, 0, 4, 4, 0⟩).2.1 (by norm_num) (by norm_num),
   (c8_aabb_symm_refl_edge ⟨0, 0, 4, 4, 0⟩ ⟨4, 0, 4, 4, 0⟩).2.2 (by norm_num) (by norm_num)
     (by norm_num) (by norm_num) (by norm_num)⟩

/-- C4: for every screen point inside a viewport rectangle with positive
width and height (and positive world dimensions), mapping screen → world
with the picker's inverse formula and back with the renderer's forward
formula returns the point exactly, over rational arithmetic. -/
theorem c4_viewport_roundtrip (cfg : EngineConfig) (r : ScreenRect) (sx sy : ℚ)
    (hcw : 0 < cfg.width) (hch : 0 < cfg.height)
    (hrw : 0 < r.w) (hrh : 0 < r.h)
    (hx1 : r.x ≤ sx) (hx2 : sx ≤ r.x + r.w)
    (hy1 : r.y ≤ sy) (hy2 : sy ≤ r.y + r.h) :
    worldToScreen cfg r (screenToWorld cfg r (sx, sy)) = (sx, sy) := by
  have hW : ((cfg.width : ℚ)) ≠ 0 := by
    have : (0 : ℚ) < (cfg.width : ℚ) := by exact_mod_cast hcw
    exact this.ne'
  have hH : ((cfg.height : ℚ)) ≠ 0 := by
    have : (0 : ℚ) < (cfg.height : ℚ) := by exact_mod_cast hch
    exact this.ne'
  simp only [worldToScreen, screenToWorld]
  rw [Prod.mk.injEq]
  constructor
  · field_simp
  · field_simp

theorem c4_viewport_roundtrip_witness :
    worldToScreen cfgE2 ⟨100, 50, 400, 300⟩
        (screenToWorld cfgE2 ⟨100, 50, 400, 300⟩ (150, 125)) = (150, 125) :=
  c4_viewport_roundtrip cfgE2 ⟨100, 50, 400, 300⟩ 150 125 (by decide) (by decide)
    (by norm_num) (by norm_num) (by norm_num) (by norm_num) (by norm_num) (by norm_num)

/-- C5: whenever the player's and target's rectangles intersect, one pickup
check returns score + 1 and relocates the target, keeping its size, to a
position whose top-left lies in [0, width − w] × [0, height − h] (for any
value of the random oracle). -/
theorem c5_pickup_bounds (cfg : EngineConfig) (r1 r2 : Nat)
    (pt tt : Transform) (score : Int)
    (hint : aabbIntersect pt tt = true)
    (hw0 : 0 ≤ tt.w) (hh0 : 0 ≤ tt.h)
    (hmw : 0 < cfg.width - cppInt tt.w) (hmh : 0 < cfg.height - cppInt tt.h) :
    (pickupCheck cfg r1 r2 pt tt score).2 = score + 1
    ∧ (pickupCheck cfg r1 r2 pt tt score).1.w = tt.w
    ∧ (pickupCheck cfg r1 r2 pt tt score).1.h = tt.h
    ∧ 0 ≤ (pickupCheck cfg r1 r2 pt tt score).1.x
    ∧ (pickupCheck cfg r1 r2 pt tt score).1.x ≤ (cfg.width : ℚ) - tt.w
    ∧ 0 ≤ (pickupCheck cfg r1 r2 pt tt score).1.y
    ∧ (pickupCheck cfg r1 r2 pt tt score).1.y ≤ (cfg.height : ℚ) - tt.h := by
  have hcw : cppInt tt.w = ⌊tt.w⌋ := if_neg (not_lt.mpr hw0)
  have hch : cppInt tt.h = ⌊tt.h⌋ := if_neg (not_lt.mpr hh0)
  obtain ⟨hx0, hx1⟩ := randMod_bounds r1 _ hmw
  obtain ⟨hy0, hy1⟩ := randMod_bounds r2 _ hmh
  have hwf : tt.w < (⌊tt.w⌋ : ℚ) + 1 := Int.lt_floor_add_one tt.w
  have hhf : tt.h < (⌊tt.h⌋ : ℚ) + 1 := Int.lt_floor_add_one tt.h
  have hstep : pickupCheck cfg r1 r2 pt tt score
      = ({ tt with x := randMod r1 (cfg.width - cppInt tt.w),
                   y := randMod r2 (cfg.height - cppInt tt.h) }, score + 1) := by
    unfold pickupCheck
    rw [if_pos hint]
  rw [hstep]
  refine ⟨rfl, rfl, rfl, hx0, ?_, hy0, ?_⟩
  · show randMod r1 (cfg.width - cppInt tt.w) ≤ (cfg.width : ℚ) - tt.w
    calc randMod r1 (cfg.width - cppInt tt.w)
        ≤ ((cfg.width - cppInt tt.w : ℤ) : ℚ) - 1 := hx1
    _ ≤ (cfg.width : ℚ) - tt.w := by rw [hcw]; push_cast; linarith
  · show randMod r2 (cfg.height - cppInt tt.h) ≤ (cfg.height : ℚ) - tt.h
    calc randMod r2 (cfg.height - cppInt tt.h)
        ≤ ((cfg.height - cppInt tt.h : ℤ) : ℚ) - 1 := hy1
    _ ≤ (cfg.height : ℚ) - tt.h := by rw [hch]; push_cast; linarith

theorem c5_pickup_bounds_witness :
    (pickupCheck cfgE2 5000 7000 ⟨400, 300, 64, 64, 0⟩ ⟨400, 300, 32, 32, 0⟩ 0).2 = 0 + 1
    ∧ (pickupCheck cfgE2 5000 7000 ⟨400, 300, 64, 64, 0⟩ ⟨400, 300, 32, 32, 0⟩ 0).1.w = 32
    ∧ (pickupCheck cfgE2 5000 7000 ⟨400, 300, 64, 64, 0⟩ ⟨400, 300, 32, 32, 0⟩ 0).1.h = 32
    ∧ 0 ≤ (pickupCheck cfgE2 5000 7000 ⟨400, 300, 64, 64, 0⟩ ⟨400, 300, 32, 32, 0⟩ 0).1.x
    ∧ (pickupCheck cfgE2 5000 7000 ⟨400, 300, 64, 64, 0⟩ ⟨400, 300, 32, 32, 0⟩ 0).1.x
        ≤ (cfgE2.width : ℚ) - 32
    ∧ 0 ≤ (pickupCheck cfgE2 5000 7000 ⟨400, 300, 64, 64, 0⟩ ⟨400, 300, 32, 32, 0⟩ 0).1.y
    ∧ (pickupCheck cfgE2 5000 7000 ⟨400, 300, 64, 64, 0⟩ ⟨400, 300, 32, 32, 0⟩ 0).1.y
        ≤ (cfgE2.height : ℚ) - 32 :=
  c5_pickup_bounds cfgE2 5000 7000 ⟨400, 300, 64, 64, 0⟩ ⟨400, 300, 32, 32, 0⟩ 0
    ((aabbIntersect_iff ⟨400, 300, 64, 64, 0⟩ ⟨400, 300, 32, 32, 0⟩).mpr
      ⟨by norm_num, by norm_num, by norm_num, by norm_num⟩)
    (by norm_num) (by norm_num)
    (by norm_num [cfgE2, cppInt]) (by norm_num [cfgE2, cppInt])

/-- C6: in the chase step, when the value `sqrtf` returns for the squared
center distance is at most the epsilon 1e-3, no movement is applied to the
enemy (the guard also means the division by the distance is never a division
by zero); when it exceeds the epsilon and squares back to the squared center
distance, the enemy's displacement is exactly `speed` times the normalized
direction toward the player, so its magnitude is `speed`. -/
theorem c6_chase_eps_guard (sq : ℚ → ℚ) (speed : ℚ) (pt et : Transform) (d : ℚ)
    (hd : d = sq (centerDx pt et * centerDx pt et + centerDy pt et * centerDy pt et)) :
    (d ≤ 1 / 1000 → chaseMove sq speed pt et = et)
    ∧ (1 / 1000 < d →
        d * d = centerDx pt et * centerDx pt et + centerDy pt et * centerDy pt et →
        d ≠ 0
        ∧ (chaseMove sq speed pt et).x = et.x + centerDx pt et / d * speed
        ∧ (chaseMove sq speed pt et).y = et.y + centerDy pt et / d * speed
        ∧ ((chaseMove sq speed pt et).x - et.x) * ((chaseMove sq speed pt et).x - et.x)
            + ((chaseMove sq speed pt et).y - et.y) * ((chaseMove sq speed pt et).y - et.y)
            = speed * speed) := by
  constructor
  · intro hle
    rw [chaseMove, ← hd]
    exact if_neg (not_lt.mpr hle)
  · intro hgt hsq
    have hne : d ≠ 0 := by
      have : (0 : ℚ) < d := lt_trans (by norm_num) hgt
      exact this.ne'
    have hx : (chaseMove sq speed pt et).x = et.x + centerDx pt et / d * speed := by
      rw [chaseMove, ← hd, if_pos hgt]
    have hy : (chaseMove sq speed pt et).y = et.y + centerDy pt et / d * speed := by
      rw [chaseMove, ← hd, if_pos hgt]
    refine ⟨hne, hx, hy, ?_⟩
    rw [hx, hy]
    have expand : (et.x + centerDx pt et / d * speed - et.x)
          * (et.x + centerDx pt et / d * speed - et.x)
        + (et.y + centerDy pt et / d * speed - et.y)
          * (et.y + centerDy pt et / d * speed - et.y)
        = (centerDx pt et * centerDx pt et + centerDy pt et * centerDy pt et)
            * (speed * speed) / (d * d) := by
      field_simp
      ring
    rw [expand, ← hsq]
    field_simp

theorem c6_chase_eps_guard_witness :
    (chaseMove (fun _ => 0) 7 ⟨100, 100, 64, 64, 0⟩ ⟨78, 68, 48, 48, 0⟩
        = ⟨78, 68, 48, 48, 0⟩)
    ∧ ((50 : ℚ) ≠ 0
        ∧ (chaseMove sqW 10 ⟨100, 100, 64, 64, 0⟩ ⟨78, 68, 48, 48, 0⟩).x
            = (78 : ℚ) + centerDx ⟨100, 100, 64, 64, 0⟩ ⟨78, 68, 48, 48, 0⟩ / 50 * 10
        ∧ (chaseMove sqW 10 ⟨100, 100, 64, 64, 0⟩ ⟨78, 68, 48, 48, 0⟩).y
            = (68 : ℚ) + centerDy ⟨100, 100, 64, 64, 0⟩ ⟨78, 68, 48, 48, 0⟩ / 50 * 10
        ∧ ((chaseMove sqW 10 ⟨100, 100, 64, 64, 0⟩ ⟨78, 68, 48, 48, 0⟩).x - 78)
              * ((chaseMove sqW 10 ⟨100, 100, 64, 64, 0⟩ ⟨78, 68, 48, 48, 0⟩).x - 78)
            + ((chaseMove sqW 10 ⟨100, 100, 64, 64, 0⟩ ⟨78, 68, 48, 48, 0⟩).y - 68)
              * ((chaseMove sqW 10 ⟨100, 100, 64, 64, 0⟩ ⟨78, 68, 48, 48, 0⟩).y - 68)
            = 10 * 10) :=
  ⟨(c6_chase_eps_guard (fun _ => 0) 7 ⟨100, 100, 64, 64, 0⟩ ⟨78, 68, 48, 48, 0⟩ 0
      rfl).1 (by norm_num),
   (c6_chase_eps_guard sqW 10 ⟨100, 100, 64, 64, 0⟩ ⟨78, 68, 48, 48, 0⟩ 50
      (by norm_num [sqW, centerDx, centerDy])).2 (by norm_num)
      (by norm_num [centerDx, centerDy])⟩

/-- C7: toggling Play twice restores the editor state exactly, and while the
playing flag is off the per-frame update leaves the whole editor session —
world, selection, score — unchanged: only the simulation step's execution is
gated by the flag. -/
theorem c7_pause_gating (cfg : EngineConfig) (sq : ℚ → ℚ) (dt : ℚ) (r1 r2 : Nat)
    (ed : Editor2) :
    Editor2.togglePlay (Editor2.togglePlay ed) = ed
    ∧ (ed.playing = false → Editor2.update cfg sq dt r1 r2 ed = ed) := by
  constructor
  · cases ed with
    | mk w s p c => simp [Editor2.togglePlay]
  · intro h
    simp [Editor2.update, h]

theorem c7_pause_gating_witness :
    Editor2.togglePlay (Editor2.togglePlay
        { world := Editor2.demoWorld cfgE2 3 4 5 6, selected := some 2,
          playing := false, score := 9 })
      = { world := Editor2.demoWorld cfgE2 3 4 5 6, selected := some 2,
          playing := false, score := 9 }
    ∧ Editor2.update cfgE2 sqW (1 / 10) 0 0
        { world := Editor2.demoWorld cfgE2 3 4 5 6, selected := some 2,
          playing := false, score := 9 }
      = { world := Editor2.demoWorld cfgE2 3 4 5 6, selected := some 2,
          playing := false, score := 9 } :=
  ⟨(c7_pause_gating cfgE2 sqW (1 / 10) 0 0
      { world := Editor2.demoWorld cfgE2 3 4 5 6, selected := some 2,
        playing := false, score := 9 }).1,
   (c7_pause_gating cfgE2 sqW (1 / 10) 0 0
      { world := Editor2.demoWorld cfgE2 3 4 5 6, selected := some 2,
        playing := false, score := 9 }).2 rfl⟩

/-- C9: while playing, each WASD key-down event sets the corresponding axis
of the first-stored (player) entity's velocity to the mapped speed, negative
for up/left and positive for down/right, and each WASD key-up event resets
that axis to 0, leaving the other axis untouched. -/
theorem c9_wasd_velocity (ed : Editor2) (v : Velocity)
    (hp : ed.playing = true) (hv : ed.firstVel = some v) :
    (Editor2.handleKeyDown .w ed).firstVel = some { vx := v.vx, vy := -200 }
    ∧ (Editor2.handleKeyDown .s ed).firstVel = some { vx := v.vx, vy := 200 }
    ∧ (Editor2.handleKeyDown .a ed).firstVel = some { vx := -200, vy := v.vy }
    ∧ (Editor2.handleKeyDown .d ed).firstVel = some { vx := 200, vy := v.vy }
    ∧ (Editor2.handleKeyUp .w ed).firstVel = some { vx := v.vx, vy := 0 }
    ∧ (Editor2.handleKeyUp .s ed).firstVel = some { vx := v.vx, vy := 0 }
    ∧ (Editor2.handleKeyUp .a ed).firstVel = some { vx := 0, vy := v.vy }
    ∧ (Editor2.handleKeyUp .d ed).firstVel = some { vx := 0, vy := v.vy } := by
  refine ⟨?_, ?_, ?_, ?_, ?_, ?_, ?_, ?_⟩ <;>
    simp only [Editor2.handleKeyDown, Editor2.handleKeyUp, hp, if_true] <;>
    exact Editor2.firstVel_modifyFirstVel ed _ v hv

/-- A one-entity playing editor state used to exercise the WASD handlers. -/
def edKeys : Editor2 :=
  { world :=
      { next := 2,
        ents := [{ id := 1,
                   comps := [.transform ⟨5, 5, 64, 64, 0⟩, .sprite, .velocity ⟨3, 4⟩] }] },
    selected := none,
    playing := true,
    score := 0 }

theorem c9_wasd_velocity_witness :
    (Editor2.handleKeyDown .w edKeys).firstVel = some { vx := 3, vy := -200 }
    ∧ (Editor2.handleKeyUp .a edKeys).firstVel = some { vx := 0, vy := 4 } :=
  ⟨(c9_wasd_velocity edKeys ⟨3, 4⟩ rfl rfl).1,
   (c9_wasd_velocity edKeys ⟨3, 4⟩ rfl rfl).2.2.2.2.2.2.1⟩

/-- C10: adding a second component of an existing kind stores both — the
count of that kind grows by exactly two after two adds — and `getComponent`
for that kind returns the earliest-added instance (the pre-existing first
match if there was one, else the first of the two just added), so later
duplicates are unreachable through it. -/
theorem c10_duplicate_components (e : Entity) (c1 c2 : Component) (k : ComponentKind)
    (h1 : c1.kind = k) (h2 : c2.kind = k) :
    ((e.addComponent c1).addComponent c2).countKind k = e.countKind k + 2
    ∧ ((e.addComponent c1).addComponent c2).getByKind k
        = some ((e.getByKind k).getD c1) := by
  constructor
  · simp [Entity.countKind, Entity.addComponent, List.filter_append, h1, h2]
  · simp only [Entity.getByKind, Entity.addComponent, List.append_assoc,
      List.find?_append]
    cases hfind : e.comps.find? (fun c => c.kind == k) with
    | some c0 => simp [Option.or]
    | none => simp [Option.or, List.find?, h1]

theorem c10_duplicate_components_witness :
    (((⟨1, [.sprite]⟩ : Entity).addComponent (.velocity ⟨1, 2⟩)).addComponent
        (.velocity ⟨3, 4⟩)).countKind .velocity
      = (⟨1, [.sprite]⟩ : Entity).countKind .velocity + 2
    ∧ (((⟨1, [.sprite]⟩ : Entity).addComponent (.velocity ⟨1, 2⟩)).addComponent
        (.velocity ⟨3, 4⟩)).getByKind .velocity
      = some (((⟨1, [.sprite]⟩ : Entity).getByKind .velocity).getD (.velocity ⟨1, 2⟩)) :=
  c10_duplicate_components ⟨1, [.sprite]⟩ (.velocity ⟨1, 2⟩) (.velocity ⟨3, 4⟩)
    .velocity rfl rfl

/-- C1 (amended): the velocity-integration phase clamps every entity that
holds both a Transform and a Velocity — whenever the entity's size fits the
world, the integrated transform's bounding rectangle lies within
[0, width] × [0, height], for any dt and velocity.  (Entities without a
Velocity, and the chase displacement, are not clamped; see the
counterexample.) -/
theorem c1_integration_clamp (cfg : EngineConfig) (dt : ℚ) (e : Entity)
    (t : Transform) (v : Velocity)
    (ht : e.getTransform = some t) (hv : e.getVelocity = some v)
    (hw1 : t.w ≤ (cfg.width : ℚ)) (hh1 : t.h ≤ (cfg.height : ℚ)) :
    (integrateEnt cfg dt e).getTransform = some (integClamp cfg dt t v)
    ∧ trInBounds cfg (integClamp cfg dt t v) = true := by
  constructor
  · simp only [integrateEnt, ht, hv]
    exact Entity.getTransform_setTransform e t _ ht
  · obtain ⟨h1, h2, h3, h4⟩ := integClamp_bounds cfg dt t v hw1 hh1
    simp only [trInBounds, Bool.and_eq_true, decide_eq_true_eq]
    exact ⟨⟨⟨h1, h2⟩, h3⟩, h4⟩

theorem c1_integration_clamp_witness :
    (integrateEnt cfgE2 1
        ⟨1, [.transform ⟨200, 100, 64, 64, 0⟩, .velocity ⟨5, -3⟩]⟩).getTransform
      = some (integClamp cfgE2 1 ⟨200, 100, 64, 64, 0⟩ ⟨5, -3⟩)
    ∧ trInBounds cfgE2 (integClamp cfgE2 1 ⟨200, 100, 64, 64, 0⟩ ⟨5, -3⟩) = true :=
  c1_integration_clamp cfgE2 1 ⟨1, [.transform ⟨200, 100, 64, 64, 0⟩, .velocity ⟨5, -3⟩]⟩
    ⟨200, 100, 64, 64, 0⟩ ⟨5, -3⟩ rfl rfl (by norm_num [cfgE2]) (by norm_num [cfgE2])

/-- An editor state, reachable by editing an entity's X in the Inspector
(or dragging near the viewport edge), holding one sprite-less entity whose
transform starts out of bounds; it has no Velocity, so a playing step never
clamps it. -/
def edOut : Editor2 :=
  { world :=
      { next := 2,
        ents := [{ id := 1, comps := [.transform ⟨-10, 0, 32, 32, 0⟩] }] },
    selected := none,
    playing := true,
    score := 0 }

theorem c1_counterexample :
    World.getTr (Editor2.update cfgE2 (fun _ => 0) 1 0 0 edOut).world 1
      = some ⟨-10, 0, 32, 32, 0⟩
    ∧ trInBounds cfgE2 ⟨-10, 0, 32, 32, 0⟩ = false := by
  constructor
  · norm_num [Editor2.update, edOut, integratePhase, integrateEnt, rolesScan,
      Entity.getTransform, Entity.getTransform.go, Entity.getVelocity,
      Entity.getVelocity.go, Entity.hasSprite, Component.kind,
      World.getTr, World.findEnt]
  · norm_num [trInBounds, cfgE2]

/-- C2 (amended): "Spawn Demo" replaces the World by the fresh three-entity
demo scene (player 64×64 with Sprite and zero Velocity at the integer-divided
world center, target 32×32 and enemy 48×48 with Sprites at randomly drawn
in-bounds positions), clears the selection and resets the score to 0; the
playing flag, however, is left exactly as it was (it does NOT return to
Paused when invoked while Playing). -/
theorem c2_spawn_demo (cfg : EngineConfig) (r1 r2 r3 r4 : Nat) (ed : Editor2)
    (hw32 : 32 < cfg.width) (hh32 : 32 < cfg.height)
    (hw48 : 48 < cfg.width) (hh48 : 48 < cfg.height) :
    (Editor2.spawnDemoScene cfg r1 r2 r3 r4 ed).playing = ed.playing
    ∧ (Editor2.spawnDemoScene cfg r1 r2 r3 r4 ed).selected = none
    ∧ (Editor2.spawnDemoScene cfg r1 r2 r3 r4 ed).score = 0
    ∧ (Editor2.spawnDemoScene cfg r1 r2 r3 r4 ed).world
        = Editor2.demoWorld cfg r1 r2 r3 r4
    ∧ (Editor2.demoWorld cfg r1 r2 r3 r4).ents.length = 3
    ∧ (Editor2.demoWorld cfg r1 r2 r3 r4).getTr 1
        = some ⟨((cfg.width / 2 - 32 : ℤ) : ℚ), ((cfg.height / 2 - 32 : ℤ) : ℚ), 64, 64, 0⟩
    ∧ (Editor2.demoWorld cfg r1 r2 r3 r4).getVel 1 = some ⟨0, 0⟩
    ∧ (Editor2.demoWorld cfg r1 r2 r3 r4).spriteAt 1 = true
    ∧ (Editor2.demoWorld cfg r1 r2 r3 r4).getTr 2
        = some ⟨randMod r1 (cfg.width - 32), randMod r2 (cfg.height - 32), 32, 32, 0⟩
    ∧ (Editor2.demoWorld cfg r1 r2 r3 r4).spriteAt 2 = true
    ∧ (Editor2.demoWorld cfg r1 r2 r3 r4).getVel 2 = none
    ∧ (Editor2.demoWorld cfg r1 r2 r3 r4).getTr 3
        = some ⟨randMod r3 (cfg.width - 48), randMod r4 (cfg.height - 48), 48, 48, 0⟩
    ∧ (Editor2.demoWorld cfg r1 r2 r3 r4).spriteAt 3 = true
    ∧ trInBounds cfg ⟨randMod r1 (cfg.width - 32), randMod r2 (cfg.height - 32), 32, 32, 0⟩
        = true
    ∧ trInBounds cfg ⟨randMod r3 (cfg.width - 48), randMod r4 (cfg.height - 48), 48, 48, 0⟩
        = true := by
  have hm32w : (0 : ℤ) < cfg.width - 32 := by omega
  have hm32h : (0 : ℤ) < cfg.height - 32 := by omega
  have hm48w : (0 : ℤ) < cfg.width - 48 := by omega
  have hm48h : (0 : ℤ) < cfg.height - 48 := by omega
  obtain ⟨htx0, htx1⟩ := randMod_bounds r1 _ hm32w
  obtain ⟨hty0, hty1⟩ := randMod_bounds r2 _ hm32h
  obtain ⟨hex0, hex1⟩ := randMod_bounds r3 _ hm48w
  obtain ⟨hey0, hey1⟩ := randMod_bounds r4 _ hm48h
  refine ⟨rfl, rfl, rfl, rfl, rfl, rfl, rfl, rfl, rfl, rfl, rfl, rfl, rfl, ?_, ?_⟩
  · simp only [trInBounds, Bool.and_eq_true, decide_eq_true_eq]
    refine ⟨⟨⟨htx0, hty0⟩, ?_⟩, ?_⟩
    · have : randMod r1 (cfg.width - 32) ≤ ((cfg.width - 32 : ℤ) : ℚ) - 1 := htx1
      push_cast at this ⊢
      linarith
    · have : randMod r2 (cfg.height - 32) ≤ ((cfg.height - 32 : ℤ) : ℚ) - 1 := hty1
      push_cast at this ⊢
      linarith
  · simp only [trInBounds, Bool.and_eq_true, decide_eq_true_eq]
    refine ⟨⟨⟨hex0, hey0⟩, ?_⟩, ?_⟩
    · have : randMod r3 (cfg.width - 48) ≤ ((cfg.width - 48 : ℤ) : ℚ) - 1 := hex1
      push_cast at this ⊢
      linarith
    · have : randMod r4 (cfg.height - 48) ≤ ((cfg.height - 48 : ℤ) : ℚ) - 1 := hey1
      push_cast at this ⊢
      linarith

theorem c2_spawn_demo_witness :
    (Editor2.spawnDemoScene cfgE2 11 22 33 44 edKeys).playing = edKeys.playing
    ∧ (Editor2.spawnDemoScene cfgE2 11 22 33 44 edKeys).selected = none
    ∧ (Editor2.spawnDemoScene cfgE2 11 22 33 44 edKeys).score = 0
    ∧ (Editor2.spawnDemoScene cfgE2 11 22 33 44 edKeys).world
        = Editor2.demoWorld cfgE2 11 22 33 44
    ∧ (Editor2.demoWorld cfgE2 11 22 33 44).ents.length = 3
    ∧ (Editor2.demoWorld cfgE2 11 22 33 44).getTr 1
        = some ⟨((cfgE2.width / 2 - 32 : ℤ) : ℚ), ((cfgE2.height / 2 - 32 : ℤ) : ℚ),
            64, 64, 0⟩
    ∧ (Editor2.demoWorld cfgE2 11 22 33 44).getVel 1 = some ⟨0, 0⟩
    ∧ (Editor2.demoWorld cfgE2 11 22 33 44).spriteAt 1 = true
    ∧ (Editor2.demoWorld cfgE2 11 22 33 44).getTr 2
        = some ⟨randMod 11 (cfgE2.width - 32), randMod 22 (cfgE2.height - 32), 32, 32, 0⟩
    ∧ (Editor2.demoWorld cfgE2 11 22 33 44).spriteAt 2 = true
    ∧ (Editor2.demoWorld cfgE2 11 22 33 44).getVel 2 = none
    ∧ (Editor2.demoWorld cfgE2 11 22 33 44).getTr 3
        = some ⟨randMod 33 (cfgE2.width - 48), randMod 44 (cfgE2.height - 48), 48, 48, 0⟩
    ∧ (Editor2.demoWorld cfgE2 11 22 33 44).spriteAt 3 = true
    ∧ trInBounds cfgE2
        ⟨randMod 11 (cfgE2.width - 32), randMod 22 (cfgE2.height - 32), 32, 32, 0⟩ = true
    ∧ trInBounds cfgE2
        ⟨randMod 33 (cfgE2.width - 48), randMod 44 (cfgE2.height - 48), 48, 48, 0⟩ = true :=
  c2_spawn_demo cfgE2 11 22 33 44 edKeys (by decide) (by decide) (by decide) (by decide)

theorem c2_counterexample :
    (Editor2.spawnDemoScene cfgE2 9 9 9 9 edKeys).playing ≠ false := by
  simp [Editor2.spawnDemoScene, edKeys]

/-- C3 (amended): in the editor variant, a playing step whose role scan
finds a player and an enemy (and no target) and in which the player's and
(chase-moved) enemy's rectangles intersect ends with score 0 and the player
moved to `(width/2 − 32, height/2 − 32)` (integer division).  The
non-editor variant instead resets the player's top-left to
`(width/2, height/2)` — see the counterexample. -/
theorem c3_catch_reset (cfg : EngineConfig) (sq : ℚ → ℚ) (dt : ℚ) (r1 r2 : Nat)
    (ed : Editor2) (pid eid : Nat) (pt et : Transform)
    (hplay : ed.playing = true)
    (hroles : rolesScan (integratePhase cfg dt ed.world).ents
        = { player := some pid, enemy := some eid, target := none })
    (hpt : (integratePhase cfg dt ed.world).getTr pid = some pt)
    (het : (integratePhase cfg dt ed.world).getTr eid = some et)
    (hne : pid ≠ eid)
    (hhit : aabbIntersect pt (chaseMove sq (100 * dt) pt et) = true) :
    (Editor2.update cfg sq dt r1 r2 ed).score = 0
    ∧ (Editor2.update cfg sq dt r1 r2 ed).world.getTr pid
        = some { pt with x := ((cfg.width / 2 - 32 : ℤ) : ℚ),
                         y := ((cfg.height / 2 - 32 : ℤ) : ℚ) } := by
  have hpt2 : ((integratePhase cfg dt ed.world).setTr eid
      (chaseMove sq (100 * dt) pt et)).getTr pid = some pt := by
    rw [World.getTr_setTr_of_ne _ _ _ _ hne]
    exact hpt
  have het2 : ((integratePhase cfg dt ed.world).setTr eid
      (chaseMove sq (100 * dt) pt et)).getTr eid = some (chaseMove sq (100 * dt) pt et) :=
    World.getTr_setTr_self _ _ _ et het
  have hupd : Editor2.update cfg sq dt r1 r2 ed
      = { ed with
            world := ((integratePhase cfg dt ed.world).setTr eid
                (chaseMove sq (100 * dt) pt et)).setTr pid
              { pt with x := ((cfg.width / 2 - 32 : ℤ) : ℚ),
                        y := ((cfg.height / 2 - 32 : ℤ) : ℚ) },
            score := 0 } := by
    unfold Editor2.update
    rw [if_pos hplay]
    simp only [hroles, hpt, het, hpt2, het2, hhit, if_true]
  rw [hupd]
  refine ⟨rfl, ?_⟩
  exact World.getTr_setTr_self _ _ _ pt hpt2

/-- A playing two-entity editor scene (player overlapping the enemy) used to
exercise the catch-reset branch of the step. -/
def edCatch : Editor2 :=
  { world :=
      { next := 3,
        ents := [{ id := 1,
                   comps := [.transform ⟨100, 100, 64, 64, 0⟩, .sprite, .velocity ⟨0, 0⟩] },
                 { id := 2,
                   comps := [.transform ⟨78, 68, 48, 48, 0⟩, .sprite] }] },
    selected := none,
    playing := true,
    score := 5 }

theorem c3_catch_reset_witness :
    (Editor2.update cfgE2 sqW (1 / 10) 0 0 edCatch).score = 0
    ∧ (Editor2.update cfgE2 sqW (1 / 10) 0 0 edCatch).world.getTr 1
        = some { x := ((cfgE2.width / 2 - 32 : ℤ) : ℚ),
                 y := ((cfgE2.height / 2 - 32 : ℤ) : ℚ),
                 w := 64, h := 64, angle := (0 : ℚ) } := by
  have hw1 : integratePhase cfgE2 (1 / 10) edCatch.world
      = { next := 3,
          ents := [{ id := 1,
                     comps := [.transform ⟨100, 100, 64, 64, 0⟩, .sprite, .velocity ⟨0, 0⟩] },
                   { id := 2,
                     comps := [.transform ⟨78, 68, 48, 48, 0⟩, .sprite] }] } := by
    norm_num [integratePhase, integrateEnt, integClamp, edCatch,
      Entity.getTransform, Entity.getTransform.go, Entity.getVelocity,
      Entity.getVelocity.go, Entity.setTransform, Entity.setTransform.go, cfgE2]
  have hcm : chaseMove sqW (100 * (1 / 10)) ⟨100, 100, 64, 64, 0⟩ ⟨78, 68, 48, 48, 0⟩
      = ⟨84, 76, 48, 48, 0⟩ := by
    norm_num [chaseMove, centerDx, centerDy, sqW]
  have h := c3_catch_reset cfgE2 sqW (1 / 10) 0 0 edCatch 1 2
    ⟨100, 100, 64, 64, 0⟩ ⟨78, 68, 48, 48, 0⟩ rfl
    (by rw [hw1]; norm_num [rolesScan, Entity.hasSprite, Entity.getTransform,
      Entity.getTransform.go, Component.kind])
    (by rw [hw1]; rfl)
    (by rw [hw1]; rfl)
    (by decide)
    (by rw [hcm]
        exact (aabbIntersect_iff _ _).mpr ⟨by norm_num, by norm_num, by norm_num, by norm_num⟩)
  exact h

/-- The key-state table with every relevant key up. -/
def keysOff : Keys :=
  { w := false, a := false, s := false, d := false,
    up := false, down := false, left := false, right := false }

/-- A demo-game state of the first file with the player's and enemy's
rectangles overlapping and the target far away; centers are 50 apart. -/
def g1Start : G1State :=
  { pt := ⟨402, 300, 64, 64, 0⟩,
    pv := ⟨0, 0⟩,
    tt := ⟨10, 10, 32, 32, 0⟩,
    et := ⟨380, 268, 48, 48, 0⟩,
    score := 7 }

theorem c3_counterexample :
    (engine1Step cfgE1 sqW keysOff 0 0 0 0 100 100 g1Start).score = 0
    ∧ (engine1Step cfgE1 sqW keysOff 0 0 0 0 100 100 g1Start).pt.x = 400
    ∧ (engine1Step cfgE1 sqW keysOff 0 0 0 0 100 100 g1Start).pt.y = 300
    ∧ (400 : ℚ) ≠ ((cfgE1.width / 2 - 32 : ℤ) : ℚ) := by
  have hstep : engine1Step cfgE1 sqW keysOff 0 0 0 0 100 100 g1Start
      = { pt := ⟨400, 300, 64, 64, 0⟩,
          pv := ⟨0, 0⟩,
          tt := ⟨10, 10, 32, 32, 0⟩,
          et := ⟨100, 100, 48, 48, 0⟩,
          score := 0 } := by
    norm_num [engine1Step, g1Start, keysOff, cfgE1, integClamp, chaseMove,
      centerDx, centerDy, sqW, aabbIntersect, randMod, cppInt]
  rw [hstep]
  norm_num [cfgE1]

end SdlEngine
